import Mathlib

/-!
# Verification of the Operation Execution & Log Streaming Engine

Shallow embedding of the operation registry (`operationStore.ts`), the
event-stream listener (`useOperationStream`), the operation launcher
(`executeOperation.ts`) and the error classifier's keyword categorizer
(`errorParser.ts`), together with proofs about the specified behaviour.

Modelling conventions:
* TypeScript optional string fields become `Option String`.
* Timestamps (ISO strings run through `new Date(·).getTime()`) become `Int`
  milliseconds.
* JavaScript truthiness on strings (`x || y`, `!!x`) is modelled explicitly:
  the empty string is falsy.
* The zustand store's `set` with a partial object is a record update.
-/

namespace Penumbra

/-- JS truthiness of an optional string: `undefined`/`null` and `""` are falsy. -/
def strTruthy : Option String → Bool
  | none => false
  | some s => s ≠ ""

/-- `x || null` on an optional string. -/
def jsOrNull (x : Option String) : Option String :=
  if strTruthy x then x else none

/-- `x || y` where `y : String` is the fallback (e.g. `log.id || uuidv4()`). -/
def jsOrStr (x : Option String) (y : String) : String :=
  match x with
  | some s => if s = "" then y else s
  | none => y

/-- `x || y` on two optional strings (e.g. `errorMessage || errorDetail`). -/
def jsOrOpt (x y : Option String) : Option String :=
  if strTruthy x then x else y

/-- `x ?? y` (nullish coalescing: only `undefined`/`null` falls through). -/
def nullishOr (x y : Option String) : Option String :=
  match x with
  | some s => some s
  | none => y

/-- Log level, from `LogEvent['level']` in `types`. -/
inductive Level where
  | info
  | success
  | error
  | warning
deriving DecidableEq, Repr

/-- `OperationType = 'read' | 'write' | null` is modelled as
`Option RW` with `RW` the non-null part. -/
inductive RW where
  | read
  | write
deriving DecidableEq, Repr

/-- `LogEvent` from `types`: `{id?, timestamp, level, message, partition_name?}`.
The ISO timestamp string is modelled as `Int` milliseconds. -/
structure LogEvent where
  id : Option String
  timestamp : Int
  level : Level
  message : String
  partition_name : Option String
deriving DecidableEq, Repr

/-- `FlashProgress` from `types`. -/
structure FlashProgress where
  current : Nat
  total : Nat
  percentage : Nat
  partition_name : String
  operation : RW
deriving DecidableEq, Repr

/-- The state slice of the zustand `useOperationStore`. -/
structure OperationState where
  type : Option RW
  partitionName : Option String
  partitionSize : Option String
  isRunning : Bool
  operationId : Option String
  isStreaming : Bool
  startTime : Option Int
  logs : List LogEvent
  progress : Option FlashProgress
  error : Option String
deriving DecidableEq, Repr

/-- The store's initial state. -/
def initialState : OperationState :=
  { type := none
    partitionName := none
    partitionSize := none
    isRunning := false
    operationId := none
    isStreaming := false
    startTime := none
    logs := []
    progress := none
    error := none }

/-- `MAX_LOGS = 10000` from `operationStore.ts`. -/
def MAX_LOGS : Nat := 10000

/-- `startOperation` from `operationStore.ts`. `now` stands for `Date.now()`. -/
def startOperation (s : OperationState) (type : RW) (partitionName : String)
    (partitionSize : Option String) (operationId : Option String) (now : Int) :
    OperationState :=
  { s with
    type := some type
    partitionName := some partitionName
    partitionSize := jsOrNull partitionSize
    isRunning := true
    progress := none
    logs := s.logs
    error := none
    operationId := jsOrNull operationId
    isStreaming := strTruthy operationId
    startTime := some now }

/-- `setOperationId` from `operationStore.ts`. -/
def setOperationId (s : OperationState) (operationId : String) : OperationState :=
  { s with operationId := some operationId, isStreaming := true }

/-- `setIsStreaming` from `operationStore.ts`. -/
def setIsStreaming (s : OperationState) (b : Bool) : OperationState :=
  { s with isStreaming := b }

/-- `updateProgress` from `operationStore.ts`. -/
def updateProgress (s : OperationState) (p : FlashProgress) : OperationState :=
  { s with progress := some p }

/-- The dedup test in `addLog`: the last log has the same message and the
timestamps are strictly less than 500 ms apart. -/
def isDupOf (logs : List LogEvent) (g : LogEvent) : Bool :=
  match logs.getLast? with
  | some lastLog =>
      lastLog.message = g.message ∧ (g.timestamp - lastLog.timestamp).natAbs < 500
  | none => false

/-- The FIFO trim in `addLog`: `splice(0, length - MAX_LOGS)` when over the bound. -/
def trimLogs (l : List LogEvent) : List LogEvent :=
  if l.length > MAX_LOGS then l.drop (l.length - MAX_LOGS) else l

/-- `addLog` from `operationStore.ts`. `fresh` stands for the `uuidv4()` call
used when the entry has no (truthy) id. -/
def addLog (s : OperationState) (g : LogEvent) (fresh : String) : OperationState :=
  if isDupOf s.logs g then s
  else
    let newLog : LogEvent := { g with id := some (jsOrStr g.id fresh) }
    { s with logs := trimLogs (s.logs ++ [newLog]) }

/-- `clearLogs` from `operationStore.ts`. -/
def clearLogs (s : OperationState) : OperationState :=
  { s with logs := [] }

/-- `finishOperation` from `operationStore.ts`; the `success` argument is
bound as `_success` and unused. -/
def finishOperation (s : OperationState) (_success : Bool)
    (error : Option String) : OperationState :=
  { s with isRunning := false, error := jsOrNull error, isStreaming := false }

/-- `clearOperation` from `operationStore.ts`. -/
def clearOperation (_s : OperationState) : OperationState :=
  initialState

/-- All registry actions of `useOperationStore`, for whole-history statements. -/
inductive Action where
  | start (type : RW) (partitionName : String) (partitionSize : Option String)
      (operationId : Option String) (now : Int)
  | setOperationId (operationId : String)
  | setIsStreaming (b : Bool)
  | updateProgress (p : FlashProgress)
  | addLog (g : LogEvent) (fresh : String)
  | clearLogs
  | finishOperation (success : Bool) (error : Option String)
  | clearOperation
deriving Repr

/-- Apply one registry action to the state. -/
def applyAction (s : OperationState) : Action → OperationState
  | .start type pn ps oid now => startOperation s type pn ps oid now
  | .setOperationId oid => setOperationId s oid
  | .setIsStreaming b => setIsStreaming s b
  | .updateProgress p => updateProgress s p
  | .addLog g fresh => addLog s g fresh
  | .clearLogs => clearLogs s
  | .finishOperation ok err => finishOperation s ok err
  | .clearOperation => clearOperation s

/-- Apply a whole sequence of registry actions from left to right. -/
def applyActions (s : OperationState) (acts : List Action) : OperationState :=
  acts.foldl applyAction s

/-! ## Event Stream Listener (`useOperationStream`) -/

/-- `OperationOutputEvent` payload of the `operation:output` channel. -/
structure OperationOutputEvent where
  operation_id : String
  line : String
  timestamp : Int
  is_stderr : Bool
deriving DecidableEq, Repr

/-- `OperationCompleteEvent` payload of the `operation:complete` channel. -/
structure OperationCompleteEvent where
  operation_id : String
  success : Bool
  error : Option String
deriving DecidableEq, Repr

/-- Does the character list `l` start with `p`? -/
def charsStartWith : List Char → List Char → Bool
  | _, [] => true
  | [], _ :: _ => false
  | c :: l, d :: p => c = d && charsStartWith l p

/-- Does `p` occur contiguously somewhere in `l`? -/
def charsContain (l p : List Char) : Bool :=
  match l with
  | [] => p.isEmpty
  | _ :: t => charsStartWith l p || charsContain t p

/-- JS `hay.includes(pat)`: `pat` occurs as a contiguous substring of `hay`. -/
def includes (hay pat : String) : Bool :=
  charsContain hay.toList pat.toList

/-- JS `s.toLowerCase()`: lower-case character by character. -/
def jsToLower (s : String) : String :=
  String.mk (s.toList.map Char.toLower)

/-- The log-level sniffing of the output-line listener: start from
stderr → error / stdout → info, then override by keyword, first match wins. -/
def parseLevel (line : String) (is_stderr : Bool) : Level :=
  let base : Level := if is_stderr then .error else .info
  let lowerLine := jsToLower line
  if includes lowerLine "error" || includes lowerLine "failed" then .error
  else if includes lowerLine "warning" || includes lowerLine "warn" then .warning
  else if includes lowerLine "success" || includes lowerLine "complete"
       || includes lowerLine "found" then .success
  else base

/-- The log entry the output listener builds from an event: the event's own
timestamp, no id, no partition name, sniffed level, the line as message. -/
def outputEntry (ev : OperationOutputEvent) : LogEvent :=
  { id := none
    timestamp := ev.timestamp
    level := parseLevel ev.line ev.is_stderr
    message := ev.line
    partition_name := none }

/-- The `operation:output` callback body (after the unmount guard): build the
log entry from the event and hand it to `addLog`. -/
def handleOutput (s : OperationState) (ev : OperationOutputEvent)
    (fresh : String) : OperationState :=
  addLog s (outputEntry ev) fresh

/-- The `operation:complete` callback body (after the unmount guard):
`finishOperation(success, error)` then `setIsStreaming(false)`. The event's
`operation_id` is never read. -/
def handleComplete (s : OperationState) (ev : OperationCompleteEvent) :
    OperationState :=
  setIsStreaming (finishOperation s ev.success ev.error) false

/-- An event delivered on either push channel. -/
inductive StreamEvent where
  | output (ev : OperationOutputEvent) (fresh : String)
  | complete (ev : OperationCompleteEvent)
deriving Repr

/-- A listener callback as actually installed: it first checks the `isMounted`
guard captured at subscribe time and returns without touching state when the
guard is down. -/
def deliverEvent (isMounted : Bool) (s : OperationState) :
    StreamEvent → OperationState
  | .output ev fresh => if isMounted then handleOutput s ev fresh else s
  | .complete ev => if isMounted then handleComplete s ev else s

/-! ## Error classifier keyword categorization (`errorParser.ts`) -/

/-- `ErrorCategory` from `types/errors`. -/
inductive ErrorCategory where
  | network
  | permission
  | filesystem
  | validation
  | command
  | update
  | unknown
deriving DecidableEq, Repr

/-- `categorizeErrorString` from `errorParser.ts`: lower-case the message and
test the keyword groups in priority order. -/
def categorizeErrorString (message : String) : ErrorCategory :=
  let lowerMessage := jsToLower message
  if includes lowerMessage "network" || includes lowerMessage "connection"
      || includes lowerMessage "timeout" || includes lowerMessage "dns"
      || includes lowerMessage "github" || includes lowerMessage "download"
      || includes lowerMessage "fetch" then
    .network
  else if includes lowerMessage "permission" || includes lowerMessage "access denied"
      || includes lowerMessage "error code 5" || includes lowerMessage "error code 32"
      || includes lowerMessage "sharing violation"
      || includes lowerMessage "administrator" then
    .permission
  else if includes lowerMessage "file" || includes lowerMessage "directory"
      || includes lowerMessage "path" || includes lowerMessage "not found"
      || includes lowerMessage "disk full" || includes lowerMessage "no space" then
    .filesystem
  else if includes lowerMessage "command" || includes lowerMessage "execution"
      || includes lowerMessage "antumbra" then
    .command
  else if includes lowerMessage "update" || includes lowerMessage "checksum"
      || includes lowerMessage "hash" || includes lowerMessage "verification" then
    .update
  else
    .unknown

/-- Does the message, lower-cased, contain any of the keywords? -/
def containsAny (m : String) (kws : List String) : Bool :=
  kws.any fun kw => includes (jsToLower m) kw

/-- The network keywords of `categorizeErrorString`, in source order. -/
def networkKeywords : List String :=
  ["network", "connection", "timeout", "dns", "github", "download", "fetch"]

/-- The permission keywords of `categorizeErrorString`, in source order. -/
def permissionKeywords : List String :=
  ["permission", "access denied", "error code 5", "error code 32",
   "sharing violation", "administrator"]

/-- The file-system keywords of `categorizeErrorString`, in source order. -/
def filesystemKeywords : List String :=
  ["file", "directory", "path", "not found", "disk full", "no space"]

/-- The command keywords of `categorizeErrorString`, in source order. -/
def commandKeywords : List String :=
  ["command", "execution", "antumbra"]

/-- The update keywords of `categorizeErrorString`, in source order. -/
def updateKeywords : List String :=
  ["update", "checksum", "hash", "verification"]

/-- Modelled from the spec: the keyword categorization exactly as the claim
words it — network on network/connection/timeout/dns/download/fetch, then
permission, filesystem, command, update, else unknown, first match wins —
with no `github` network keyword and no `antumbra` command keyword. -/
def claimCategorize (m : String) : ErrorCategory :=
  if containsAny m ["network", "connection", "timeout", "dns", "download", "fetch"]
    then .network
  else if containsAny m permissionKeywords then .permission
  else if containsAny m filesystemKeywords then .filesystem
  else if containsAny m ["command", "execution"] then .command
  else if containsAny m updateKeywords then .update
  else .unknown

/-- The keyword categorization reworded as a first-match-wins chain over the
full keyword lists of the source (the amended claim). -/
def specCategorize (m : String) : ErrorCategory :=
  if containsAny m networkKeywords then .network
  else if containsAny m permissionKeywords then .permission
  else if containsAny m filesystemKeywords then .filesystem
  else if containsAny m commandKeywords then .command
  else if containsAny m updateKeywords then .update
  else .unknown

/-- The level sniffing of the output listener, reworded as the claim puts it:
error on error/failed, else warning on warning/warn, else success on
success/complete/found, else stderr → error / stdout → info. -/
def specParseLevel (line : String) (isStderr : Bool) : Level :=
  if containsAny line ["error", "failed"] then .error
  else if containsAny line ["warning", "warn"] then .warning
  else if containsAny line ["success", "complete", "found"] then .success
  else if isStderr then .error
  else .info

/-! ## Operation Launcher (`executeOperation.ts`) -/

/-- `ErrorOptions` from `errorHandler.ts`. -/
structure ErrorOptions where
  showToast : Option Bool
  logToConsole : Option Bool
  addToOperationLog : Option Bool
  customMessage : Option String
  showSuggestion : Option Bool
deriving DecidableEq, Repr

/-- An arbitrary JavaScript rejection value, as far as `executeOperation`
inspects it: an `Error` instance (with a message), a plain string, or
anything else. -/
inductive JsError where
  | err (message : String)
  | str (s : String)
  | other
deriving DecidableEq, Repr

/-- One call into the `ErrorHandler` facade (the Error Classifier's entry
points), recorded as an effect. -/
inductive HandlerCall where
  | handle (error : JsError) (operation : String) (options : ErrorOptions)
  | success (operation : String) (message : Option String) (showToast : Bool)
deriving DecidableEq, Repr

/-- Side effects of one `executeOperation` call that do not live in the
registry state: the `onStart` hook invocation, the UI-store
`openLogPanel` action, and the `ErrorHandler` calls. -/
structure ExecTrace where
  onStartCalledWith : Option String
  openedLogPanel : Bool
  handlerCalls : List HandlerCall
deriving DecidableEq, Repr

/-- The result value `{operationId, success}` of `executeOperation`. -/
structure ExecResult where
  operationId : String
  success : Bool
deriving DecidableEq, Repr

/-- `ExecuteOperationOptions` from `executeOperation.ts`, with the `run`
callback modelled as a function from the operation id to `Except` (a
resolving promise is `.ok`, a rejecting one is `.error e`). The omitted
optional booleans' defaults (`clearLogs = true`, `openLogPanel = true`,
`handleSuccess = true`, `successToast = true`) are applied by the caller of
the model, matching the destructuring defaults in the source. -/
structure ExecOptions where
  operation : String
  type : RW
  partitionName : String
  partitionSize : Option String
  operationId : Option String
  clearLogs : Bool := true
  openLogPanel : Bool := true
  successMessage : Option String := none
  handleSuccess : Bool := true
  successToast : Bool := true
  errorMessage : Option String := none
  errorOptions : Option ErrorOptions := none
  hasOnStart : Bool := false
  run : String → Except JsError Unit

/-- The spread `{...errorOptions, customMessage: errorMessage ?? errorOptions?.customMessage}`
passed to `ErrorHandler.handle` on the failure path. -/
def mergedErrorOptions (errorOptions : Option ErrorOptions)
    (errorMessage : Option String) : ErrorOptions :=
  let base : ErrorOptions :=
    (errorOptions).getD
      { showToast := none, logToConsole := none, addToOperationLog := none
        customMessage := none, showSuggestion := none }
  { base with
    customMessage := nullishOr errorMessage (errorOptions.bind (·.customMessage)) }

/-- `error instanceof Error ? error.message : undefined`. -/
def errorDetailOf : JsError → Option String
  | .err m => some m
  | .str _ => none
  | .other => none

/-- `executeOperation` from `executeOperation.ts`, as a pure function of the
registry state. `freshId` stands for the `uuidv4()` fallback and `now` for
`Date.now()` inside `startOperation`. Returns the promise's resolution
value, the registry state afterwards, and the recorded side effects. -/
def executeOperation (opts : ExecOptions) (s : OperationState)
    (freshId : String) (now : Int) :
    ExecResult × OperationState × ExecTrace :=
  let operationId := jsOrStr opts.operationId freshId
  let s1 := if opts.clearLogs then clearLogs s else s
  let onStartArg := if opts.hasOnStart then some operationId else none
  let s2 := startOperation s1 opts.type opts.partitionName opts.partitionSize
      (some operationId) now
  match opts.run operationId with
  | .ok _ =>
      let calls :=
        if opts.handleSuccess then
          [HandlerCall.success opts.operation opts.successMessage opts.successToast]
        else []
      let s3 := setIsStreaming (finishOperation s2 true none) false
      (⟨operationId, true⟩, s3,
        ⟨onStartArg, opts.openLogPanel, calls⟩)
  | .error e =>
      let calls :=
        [HandlerCall.handle e opts.operation
          (mergedErrorOptions opts.errorOptions opts.errorMessage)]
      let s3 := finishOperation s2 false (jsOrOpt opts.errorMessage (errorDetailOf e))
      (⟨operationId, false⟩, s3,
        ⟨onStartArg, opts.openLogPanel, calls⟩)

/-- A concrete launcher call whose `run` callback always rejects with the
plain string `"boom"`. -/
def sampleFailOpts : ExecOptions :=
  { operation := "Read partition"
    type := .read
    partitionName := "nvram"
    partitionSize := none
    operationId := some "op-1"
    run := fun _ => .error (.str "boom") }

/-! ## Helper lemmas -/

/-- The FIFO trim never leaves more than `MAX_LOGS` entries. -/
theorem trimLogs_length_le (l : List LogEvent) : (trimLogs l).length ≤ MAX_LOGS := by
  unfold trimLogs
  split
  · simp only [List.length_drop]
    omega
  · omega

/-- The FIFO trim keeps a suffix of its input. -/
theorem trimLogs_suffix (l : List LogEvent) : (trimLogs l).IsSuffix l := by
  unfold trimLogs
  split
  · exact List.drop_suffix _ l
  · exact List.suffix_rfl

/-- A short suffix of the input survives the FIFO trim. -/
theorem suffix_trimLogs_of_suffix {x l : List LogEvent} (hx : x.IsSuffix l)
    (hlen : x.length ≤ MAX_LOGS) : x.IsSuffix (trimLogs l) := by
  unfold trimLogs
  split
  · rename_i hl
    obtain ⟨a, rfl⟩ := hx
    rw [List.length_append] at hl
    have hle : (a ++ x).length - MAX_LOGS ≤ a.length := by
      rw [List.length_append]
      omega
    rw [List.drop_append_of_le_length hle]
    exact ⟨a.drop ((a ++ x).length - MAX_LOGS), rfl⟩
  · exact hx

/-- After a non-deduplicated `addLog`, the new entry (its id filled in) is the
last log. -/
theorem addLog_getLast (s : OperationState) (g : LogEvent) (fresh : String)
    (h : isDupOf s.logs g = false) :
    (addLog s g fresh).logs.getLast? =
      some { g with id := some (jsOrStr g.id fresh) } := by
  unfold addLog
  rw [h]
  simp only [Bool.false_eq_true, if_false]
  have hsfx : [({ g with id := some (jsOrStr g.id fresh) } : LogEvent)].IsSuffix
      (s.logs ++ [{ g with id := some (jsOrStr g.id fresh) }]) := ⟨s.logs, rfl⟩
  obtain ⟨a, ha⟩ := suffix_trimLogs_of_suffix hsfx (by simp [MAX_LOGS])
  rw [← ha]
  simp

/-- Every registry action keeps the log length within the bound. -/
theorem applyAction_logs_le (s : OperationState) (a : Action)
    (h : s.logs.length ≤ MAX_LOGS) : (applyAction s a).logs.length ≤ MAX_LOGS := by
  cases a <;>
    simp only [applyAction, startOperation, setOperationId, setIsStreaming,
      updateProgress, clearLogs, finishOperation, clearOperation, initialState]
  case addLog g fresh =>
    unfold addLog
    split
    · exact h
    · exact trimLogs_length_le _
  all_goals simp_all

/-- Log length stays within the bound along any action history. -/
theorem applyActions_logs_le (s : OperationState) (acts : List Action)
    (h : s.logs.length ≤ MAX_LOGS) :
    (applyActions s acts).logs.length ≤ MAX_LOGS := by
  induction acts generalizing s with
  | nil => exact h
  | cons a rest ih => exact ih _ (applyAction_logs_le s a h)

/-- If the last log is known, the dedup test is the message/window check
against it. -/
theorem isDupOf_of_getLast (logs : List LogEvent) (g lastLog : LogEvent)
    (h : logs.getLast? = some lastLog) :
    isDupOf logs g =
      decide (lastLog.message = g.message
        ∧ (g.timestamp - lastLog.timestamp).natAbs < 500) := by
  unfold isDupOf
  rw [h]

/-- A deduplicated `addLog` is a no-op on the whole state. -/
theorem addLog_of_dup (s : OperationState) (g : LogEvent) (fresh : String)
    (h : isDupOf s.logs g = true) : addLog s g fresh = s := by
  unfold addLog
  rw [h]
  simp

/-- A non-deduplicated `addLog` ends in the new entry, on top of a suffix of
the previous logs. -/
theorem addLog_logs_eq (s : OperationState) (g : LogEvent) (fresh : String)
    (h : isDupOf s.logs g = false) :
    (addLog s g fresh).logs =
      trimLogs (s.logs ++ [{ g with id := some (jsOrStr g.id fresh) }]) := by
  unfold addLog
  rw [h]
  simp

/-! ## Claim theorems -/

/-- C7: `finishOperation(success, errorMessage?)` sets `isRunning := false`,
`isStreaming := false` and `error := errorMessage || null`, and leaves every
other field — logs, partition name/size, type, operationId, progress and
startTime — unchanged. -/
theorem finishOperation_frame (s : OperationState) (ok : Bool)
    (err : Option String) :
    (finishOperation s ok err).isRunning = false
    ∧ (finishOperation s ok err).isStreaming = false
    ∧ (finishOperation s ok err).error = jsOrNull err
    ∧ (finishOperation s ok err).logs = s.logs
    ∧ (finishOperation s ok err).partitionName = s.partitionName
    ∧ (finishOperation s ok err).partitionSize = s.partitionSize
    ∧ (finishOperation s ok err).type = s.type
    ∧ (finishOperation s ok err).operationId = s.operationId
    ∧ (finishOperation s ok err).progress = s.progress
    ∧ (finishOperation s ok err).startTime = s.startTime := by
  simp [finishOperation]

/-- C10: the success flag handed to `finishOperation` never influences the
resulting state, and `finishOperation(true, m)` with a non-empty message `m`
still records `m` as the terminal error. -/
theorem finishOperation_ignores_success (s : OperationState)
    (err : Option String) :
    finishOperation s true err = finishOperation s false err
    ∧ ∀ m : String, m ≠ "" →
        (finishOperation s true (some m)).error = some m := by
  constructor
  · rfl
  · intro m hm
    simp [finishOperation, jsOrNull, strTruthy, hm]

/-- Witness for C10 at a concrete state and message. -/
theorem finishOperation_ignores_success_witness :
    finishOperation initialState true (some "disk full")
        = finishOperation initialState false (some "disk full")
    ∧ (finishOperation initialState true (some "disk full")).error
        = some "disk full" :=
  ⟨(finishOperation_ignores_success initialState (some "disk full")).1,
    (finishOperation_ignores_success initialState (some "disk full")).2
      "disk full" (by decide)⟩

/-- C2: the completion callback applies `finishOperation(success, error)` and
forces streaming off on whatever Operation is currently registered; the
event's `operation_id` plays no role in the outcome. -/
theorem handleComplete_spec (s : OperationState) (ev : OperationCompleteEvent) :
    (handleComplete s ev).isRunning = false
    ∧ (handleComplete s ev).isStreaming = false
    ∧ (handleComplete s ev).error = jsOrNull ev.error
    ∧ (handleComplete s ev).logs = s.logs
    ∧ ∀ id : String,
        handleComplete s { ev with operation_id := id } = handleComplete s ev := by
  refine ⟨rfl, rfl, rfl, rfl, fun id => ?_⟩
  simp [handleComplete, finishOperation, setIsStreaming]

/-- C9: once the unmount guard is down, delivering any sequence of queued or
in-flight output-line or completion events leaves the registry state exactly
as it was. -/
theorem deliverEvent_unmounted_noop (s : OperationState)
    (evs : List StreamEvent) :
    evs.foldl (deliverEvent false) s = s := by
  induction evs with
  | nil => rfl
  | cons e rest ih =>
      cases e <;> simpa [deliverEvent] using ih

/-- C8 counterexample: `startOperation` called with an operationId argument
that is present but empty (`some ""`) leaves `isStreaming = false`, because
the source computes `isStreaming: !!operationId` and the empty string is
falsy — so "isStreaming iff an operationId argument was present" fails. -/
theorem startOperation_empty_id_cex :
    (some "" : Option String).isSome = true
    ∧ (startOperation initialState .read "nvram" none (some "") 0).isStreaming
        = false := by
  decide

/-- C8 (amended): `startOperation(type, partitionName, partitionSize,
operationId?)` preserves the accumulated logs, resets progress and error to
null, sets `isRunning := true`, records `startTime := now`, and sets
`isStreaming := true` exactly when a non-empty operationId argument was
passed (an empty-string operationId counts as absent, per JS truthiness). -/
theorem startOperation_spec (s : OperationState) (type : RW)
    (pn : String) (ps : Option String) (oid : Option String) (now : Int) :
    (startOperation s type pn ps oid now).logs = s.logs
    ∧ (startOperation s type pn ps oid now).progress = none
    ∧ (startOperation s type pn ps oid now).error = none
    ∧ (startOperation s type pn ps oid now).isRunning = true
    ∧ (startOperation s type pn ps oid now).startTime = some now
    ∧ ((startOperation s type pn ps oid now).isStreaming = true
        ↔ ∃ i : String, oid = some i ∧ i ≠ "") := by
  refine ⟨rfl, rfl, rfl, rfl, rfl, ?_⟩
  simp only [startOperation, strTruthy]
  cases oid with
  | none => simp [strTruthy]
  | some i =>
      simp [strTruthy]

/-- Witness for C8's amended theorem at a concrete call. -/
theorem startOperation_spec_witness :
    (startOperation initialState .read "nvram" none (some "op-1") 7).logs
        = initialState.logs
    ∧ (startOperation initialState .read "nvram" none (some "op-1") 7).isRunning
        = true
    ∧ (startOperation initialState .read "nvram" none (some "op-1") 7).isStreaming
        = true :=
  ⟨(startOperation_spec initialState .read "nvram" none (some "op-1") 7).1,
    (startOperation_spec initialState .read "nvram" none (some "op-1") 7).2.2.2.1,
    ((startOperation_spec initialState .read "nvram" none (some "op-1") 7).2.2.2.2.2).2
      ⟨"op-1", rfl, by decide⟩⟩

/-- C3: after an `addLog` that actually appended its entry, a second `addLog`
with the same message is dropped entirely — the whole state, logs included,
is unchanged — when its timestamp is within 500 ms of the first, and both
entries sit at the end of the log when the timestamps are 500 ms or more
apart. -/
theorem addLog_dedup_window (s : OperationState) (g1 g2 : LogEvent)
    (f1 f2 : String) (hmsg : g1.message = g2.message)
    (h1 : isDupOf s.logs g1 = false) :
    ((g2.timestamp - g1.timestamp).natAbs < 500 →
        addLog (addLog s g1 f1) g2 f2 = addLog s g1 f1)
    ∧ (500 ≤ (g2.timestamp - g1.timestamp).natAbs →
        [{ g1 with id := some (jsOrStr g1.id f1) },
         { g2 with id := some (jsOrStr g2.id f2) }].IsSuffix
          (addLog (addLog s g1 f1) g2 f2).logs) := by
  have hlast := addLog_getLast s g1 f1 h1
  have hdup := isDupOf_of_getLast (addLog s g1 f1).logs g2 _ hlast
  constructor
  · intro hlt
    have htrue : isDupOf (addLog s g1 f1).logs g2 = true := by
      rw [hdup]
      simp only [decide_eq_true_eq]
      exact ⟨hmsg, hlt⟩
    exact addLog_of_dup _ g2 f2 htrue
  · intro hge
    have hfalse : isDupOf (addLog s g1 f1).logs g2 = false := by
      rw [hdup]
      simp only [decide_eq_false_iff_not, not_and, not_lt]
      intro _
      exact hge
    obtain ⟨b, hb⟩ : [({ g1 with id := some (jsOrStr g1.id f1) } : LogEvent)].IsSuffix
        (addLog s g1 f1).logs := by
      rw [addLog_logs_eq s g1 f1 h1]
      exact suffix_trimLogs_of_suffix ⟨s.logs, rfl⟩ (by simp [MAX_LOGS])
    rw [addLog_logs_eq _ g2 f2 hfalse]
    refine suffix_trimLogs_of_suffix ?_ (by simp [MAX_LOGS])
    refine ⟨b, ?_⟩
    rw [← hb]
    simp

/-- Witness for C3: a duplicate 400 ms after an appended entry leaves the
state untouched. -/
theorem addLog_dedup_window_witness :
    addLog
      (addLog initialState
        { id := none, timestamp := 0, level := .info
          message := "tick", partition_name := none } "u1")
      { id := none, timestamp := 400, level := .info
        message := "tick", partition_name := none } "u2"
    = addLog initialState
        { id := none, timestamp := 0, level := .info
          message := "tick", partition_name := none } "u1" :=
  (addLog_dedup_window initialState
      { id := none, timestamp := 0, level := .info
        message := "tick", partition_name := none }
      { id := none, timestamp := 400, level := .info
        message := "tick", partition_name := none }
      "u1" "u2" rfl (by decide)).1 (by decide)

/-- C4: along any action history from the initial state the log length never
exceeds `MAX_LOGS`, and a non-deduplicated `addLog` keeps a suffix of the
appended sequence (oldest entries evicted from the front), trimming to
exactly `MAX_LOGS` entries whenever the append would exceed the bound. -/
theorem logs_bounded_fifo (acts : List Action) (s : OperationState)
    (g : LogEvent) (fresh : String) (h : isDupOf s.logs g = false) :
    (applyActions initialState acts).logs.length ≤ MAX_LOGS
    ∧ (addLog s g fresh).logs.IsSuffix
        (s.logs ++ [{ g with id := some (jsOrStr g.id fresh) }])
    ∧ ((s.logs ++ [{ g with id := some (jsOrStr g.id fresh) }]).length > MAX_LOGS →
        (addLog s g fresh).logs.length = MAX_LOGS) := by
  refine ⟨applyActions_logs_le initialState acts (by simp [initialState]), ?_, ?_⟩
  · rw [addLog_logs_eq s g fresh h]
    exact trimLogs_suffix _
  · intro hgt
    rw [addLog_logs_eq s g fresh h]
    unfold trimLogs
    rw [if_pos hgt]
    simp only [List.length_drop]
    omega

/-- Witness for C4 at the empty history and a concrete appended entry. -/
theorem logs_bounded_fifo_witness :
    (applyActions initialState []).logs.length ≤ MAX_LOGS
    ∧ (addLog initialState
        { id := none, timestamp := 0, level := .info
          message := "boot", partition_name := none } "u1").logs.IsSuffix
        (initialState.logs ++
          [{ id := some "u1", timestamp := 0, level := .info
             message := "boot", partition_name := none }]) :=
  ⟨(logs_bounded_fifo [] initialState
      { id := none, timestamp := 0, level := .info
        message := "boot", partition_name := none } "u1" (by decide)).1,
    (logs_bounded_fifo [] initialState
      { id := none, timestamp := 0, level := .info
        message := "boot", partition_name := none } "u1" (by decide)).2.1⟩

/-- C5: the output listener's level sniffing matches the claim's
first-match-wins chain (error on error/failed, else warning on warning/warn,
else success on success/complete/found, else stderr → error / stdout → info),
and the appended entry is the event's line with the event's own timestamp. -/
theorem handleOutput_spec (s : OperationState) (ev : OperationOutputEvent)
    (fresh : String) :
    parseLevel ev.line ev.is_stderr = specParseLevel ev.line ev.is_stderr
    ∧ (isDupOf s.logs (outputEntry ev) = false →
        (handleOutput s ev fresh).logs.getLast? =
          some { id := some fresh
                 timestamp := ev.timestamp
                 level := parseLevel ev.line ev.is_stderr
                 message := ev.line
                 partition_name := none }) := by
  constructor
  · simp [parseLevel, specParseLevel, containsAny, Bool.or_assoc]
  · intro hdup
    have := addLog_getLast s (outputEntry ev) fresh hdup
    simpa [handleOutput, outputEntry, jsOrStr] using this

/-- Witness for C5 on a concrete stdout line. -/
theorem handleOutput_spec_witness :
    parseLevel "Reading sector 1" false = specParseLevel "Reading sector 1" false
    ∧ (handleOutput initialState
          { operation_id := "op-1", line := "Reading sector 1"
            timestamp := 5, is_stderr := false } "u1").logs.getLast? =
        some { id := some "u1", timestamp := 5
               level := parseLevel "Reading sector 1" false
               message := "Reading sector 1", partition_name := none } :=
  ⟨(handleOutput_spec initialState
      { operation_id := "op-1", line := "Reading sector 1"
        timestamp := 5, is_stderr := false } "u1").1,
    (handleOutput_spec initialState
      { operation_id := "op-1", line := "Reading sector 1"
        timestamp := 5, is_stderr := false } "u1").2 (by decide)⟩

/-- C6 counterexample: the message `"github"` contains none of the keywords
the claim lists, so the claim's chain puts it in `unknown`, yet the source's
categorizer returns `network` (the code also matches on `github`, which the
claim omits). -/
theorem categorize_github_cex :
    claimCategorize "github" = .unknown
    ∧ categorizeErrorString "github" = .network
    ∧ ErrorCategory.network ≠ ErrorCategory.unknown := by
  decide

/-- C6 (amended): the categorizer is exactly the claim's first-match-wins
chain once `github` is added to the network keywords and `antumbra` to the
command keywords (with "lock-error codes" standing for `error code 5`,
`error code 32` and `sharing violation`). -/
theorem categorize_spec (m : String) :
    categorizeErrorString m = specCategorize m := by
  simp [categorizeErrorString, specCategorize, containsAny, networkKeywords,
    permissionKeywords, filesystemKeywords, commandKeywords, updateKeywords,
    Bool.or_assoc]

/-- C1: whenever the `run` callback rejects, `executeOperation` still returns
a value — `{operationId, success := false}` with the id handed to `run` —
the rejection is forwarded to `ErrorHandler.handle` under the given label and
merged options, and the registry afterwards shows `finishOperation(false, ·)`:
not running, not streaming, terminal error `errorMessage || errorDetail`. -/
theorem executeOperation_failure (opts : ExecOptions) (s : OperationState)
    (freshId : String) (now : Int) (e : JsError)
    (h : opts.run (jsOrStr opts.operationId freshId) = .error e) :
    (executeOperation opts s freshId now).1.success = false
    ∧ (executeOperation opts s freshId now).1.operationId
        = jsOrStr opts.operationId freshId
    ∧ (executeOperation opts s freshId now).2.1.isRunning = false
    ∧ (executeOperation opts s freshId now).2.1.isStreaming = false
    ∧ (executeOperation opts s freshId now).2.1.error
        = jsOrNull (jsOrOpt opts.errorMessage (errorDetailOf e))
    ∧ (executeOperation opts s freshId now).2.2.handlerCalls
        = [HandlerCall.handle e opts.operation
            (mergedErrorOptions opts.errorOptions opts.errorMessage)] := by
  simp [executeOperation, h, finishOperation]

/-- Witness for C1: a launcher call rejecting with `"boom"` resolves with
`success := false` and a finished, non-streaming registry. -/
theorem executeOperation_failure_witness :
    (executeOperation sampleFailOpts initialState "u1" 0).1.success = false
    ∧ (executeOperation sampleFailOpts initialState "u1" 0).2.1.isRunning = false
    ∧ (executeOperation sampleFailOpts initialState "u1" 0).2.1.isStreaming = false :=
  ⟨(executeOperation_failure sampleFailOpts initialState "u1" 0 (.str "boom") rfl).1,
    (executeOperation_failure sampleFailOpts initialState "u1" 0 (.str "boom") rfl).2.2.1,
    (executeOperation_failure sampleFailOpts initialState "u1" 0 (.str "boom") rfl).2.2.2.1⟩

end Penumbra
